import Mathlib

set_option maxHeartbeats 1600000

/-!
Verification development for the Paycrypt purchase flows.

The definitions below are shallow embeddings of the purchase-flow code of the
repository: the airtime page (src/app/airtime/page.tsx), the electricity page
(src/app/electricity/page.tsx), the enhanced-wallet airtime variant and the TV
page (src/unnamed/part_004), the enhanced wallet transaction hook
(src/unnamed/part_003) and the backend API layer (src/lib/api.ts).

Modelling conventions:
- React state cells become fields of a `FlowState` record; `setX(v)` becomes a
  functional update.  Event handlers and effects become pure functions from the
  render inputs and the current state to a new state plus a list of emitted
  `Action`s (toasts, contract writes, backend calls).
- JavaScript numbers that carry money amounts and prices are modelled as
  rationals; `toFixed(d)` followed by `parseUnits(_, d)` is rounding of
  `q * 10 ^ d` to the nearest integer with ties away from zero for positive
  inputs (the ECMAScript toFixed picks the larger candidate on a tie), which for
  the non-negative quantities here is `floor (q * 10 ^ d + 1 / 2)`.
- Idempotency keys are opaque strings inside the flow machines; the key
  generator itself is modelled over `List Char` together with the byte-level
  bytes32 encoding used by `toHex(toBytes(key), size 32)`.
-/

namespace Paycrypt

/-- Transaction status values of the `txStatus` state cell shared by all
purchase pages. -/
inductive TxStatus where
  | idle
  | waitingForApprovalSignature
  | approving
  | approvalSuccess
  | waitingForSignature
  | sending
  | confirming
  | success
  | backendProcessing
  | backendSuccess
  | backendError
  | error
  | approvalError
  deriving DecidableEq, Repr

/-- Observable actions a flow run emits: user-facing toasts, on-chain writes,
the consultation of the on-chain order-existence read, and backend POST calls. -/
inductive Action where
  | toastError (msg : String)
  | toastInfo (msg : String)
  | toastSuccess (msg : String)
  | guardCheck (key : String)
  | approveWrite
  | orderWrite (key : String)
  | backendCall (requestId txHash : String)
  deriving DecidableEq, Repr

/-- Token metadata relevant to the flows (entry of the active token list). -/
structure Token where
  address : String
  symbol : String
  decimals : Nat
  deriving DecidableEq, Repr

/-- Mutable flow state owned by a page component: the transaction status, the
current idempotency key (`requestId`), whether the status modal is shown, and
the backend dedup ref (`backendRequestSentRef`). -/
structure FlowState where
  txStatus : TxStatus
  requestId : Option String
  showModal : Bool
  backendRef : Option String
  deriving DecidableEq, Repr

/-- Status of a wagmi `useWriteContract` hook at a render. -/
structure WriteState where
  isPending : Bool
  data : Option String
  isError : Bool
  deriving DecidableEq, Repr

/-- Status of a wagmi `useWaitForTransactionReceipt` hook at a render. -/
structure ReceiptState where
  isLoading : Bool
  isSuccess : Bool
  isError : Bool
  deriving DecidableEq, Repr

/-- The zero address used by the order-existence check. -/
def zeroAddress : String := "0x0000000000000000000000000000000000000000"

/-- JavaScript truthiness of the `priceNGN` value (`null`/absent and `0` are
falsy). -/
def truthyPrice : Option ℚ → Bool
  | none => false
  | some q => q != 0

/-- Rounding performed by `Number.prototype.toFixed(d)` on a non-negative value
followed by `parseUnits(_, d)`: nearest integer to `q * 10 ^ d`, ties upward. -/
def quoteUnits (q : ℚ) (d : Nat) : ℤ := ⌊q * 10 ^ d + 1 / 2⌋

section AirtimePage

/-!
Model of src/app/airtime/page.tsx (the effect-driven airtime flow).
-/

/-- Render inputs of the airtime page that stay fixed during one flow run:
wallet connectivity, the selected token, amount, phone length, spot price and
the current result of the `getOrder` read for the current key. -/
structure AirtimeForm where
  isConnected : Bool
  isOnBaseChain : Bool
  address : Option String
  token : Option Token
  amountNGN : ℚ
  phoneLen : Nat
  priceNGN : Option ℚ
  existingOrderUser : Option String
  deriving DecidableEq, Repr

/-- Derived value `cryptoNeeded = priceNGN && amountNGN ? amountNGN / priceNGN : 0`. -/
def AirtimeForm.cryptoNeeded (f : AirtimeForm) : ℚ :=
  if truthyPrice f.priceNGN ∧ f.amountNGN ≠ 0 then f.amountNGN / (f.priceNGN.getD 0) else 0

/-- Derived value `tokenAmountForOrder = parseUnits(cryptoNeeded.toFixed(decimals), decimals)`,
zero when no token is selected. -/
def AirtimeForm.tokenAmount (f : AirtimeForm) : ℤ :=
  match f.token with
  | some tk => quoteUnits f.cryptoNeeded tk.decimals
  | none => 0

/-- The order-existence hit test of handlePurchase:
`existingOrder && existingOrder.user && existingOrder.user !== zeroAddress`. -/
def AirtimeForm.orderExists (f : AirtimeForm) : Bool :=
  match f.existingOrderUser with
  | some u => u != "" && u != zeroAddress
  | none => false

/-- Wallet precondition of `ensureWalletConnected`: connected, address present,
and on the Base chain. -/
def AirtimeForm.walletOk (f : AirtimeForm) : Bool :=
  f.isConnected && f.address.isSome && f.isOnBaseChain

/-- The `handlePurchase` handler of the airtime page.  `fresh` is the value the
single `generateRequestId()` call of the run returns.  Returns the updated state
and the emitted actions in order. -/
def airtimeHandlePurchase (f : AirtimeForm) (s : FlowState) (fresh : String) :
    FlowState × List Action :=
  if ¬ f.walletOk then
    ({ s with showModal := false, txStatus := .idle, backendRef := none }, [])
  else if f.address = none ∨ s.requestId = none ∨ f.token = none ∨ f.amountNGN ≤ 0 then
    ({ s with showModal := true, txStatus := .error, backendRef := none },
      [ .toastError "Please check all form fields and wallet connection."])
  else if f.phoneLen < 10 ∨ 11 < f.phoneLen then
    ({ s with showModal := true, txStatus := .error, backendRef := none },
      [ .toastError "Please enter a valid Nigerian phone number (10-11 digits)."])
  else if f.amountNGN < 100 ∨ 50000 < f.amountNGN then
    ({ s with showModal := true, txStatus := .error, backendRef := none },
      [ .toastError "Amount must be between 100 and 50,000 naira."])
  else if ¬ truthyPrice f.priceNGN ∨ f.cryptoNeeded ≤ 0 then
    ({ s with showModal := true, txStatus := .error, backendRef := none },
      [ .toastError "Unable to calculate crypto amount. Please try again."])
  else if f.tokenAmount ≤ 0 then
    ({ s with showModal := true, txStatus := .error, backendRef := none },
      [ .toastError "Invalid token amount calculated. Please try again."])
  else if f.orderExists then
    ({ s with showModal := true, txStatus := .error, backendRef := none, requestId := some fresh },
      [ .guardCheck (s.requestId.getD ""),
        .toastError "Order already exists for this request. Please refresh and try again."])
  else if (f.token.map Token.address).getD "" = "" then
    ({ s with showModal := true, txStatus := .error, backendRef := none },
      [ .guardCheck (s.requestId.getD ""),
        .toastError "Selected crypto has no contract address."])
  else
    ({ s with showModal := true, txStatus := .waitingForApprovalSignature, backendRef := none, requestId := some fresh },
      [ .guardCheck (s.requestId.getD ""),
        .toastInfo "Approving token spend for this transaction...",
        .approveWrite])

/-- The requestId generator effect of the airtime page: mint a key when any
form field is non-empty and no key exists; clear it when the form is empty. -/
def airtimeRequestIdEffect (selectedToken network amount phone : String)
    (requestId : Option String) (fresh : String) : Option String :=
  if (selectedToken ≠ "" ∨ network ≠ "" ∨ amount ≠ "" ∨ phone ≠ "") ∧ requestId = none then
    some fresh
  else if ¬ (selectedToken ≠ "" ∨ network ≠ "" ∨ amount ≠ "" ∨ phone ≠ "") ∧ requestId ≠ none then
    none
  else requestId

/-- The approval-monitor effect of the airtime page.  On a confirmed approval
receipt it fires the delayed `createOrder` write with the bytes32 encoding of
the requestId of the current render, i.e. the current state value. -/
def airtimeApprovalEffect (approve : WriteState) (rcpt : ReceiptState)
    (s : FlowState) : FlowState × List Action :=
  if ¬ s.showModal then (s, [])
  else if approve.isPending then
    ({ s with txStatus := .waitingForApprovalSignature, backendRef := none },
      [ .toastInfo "Awaiting token approval signature..."])
  else if approve.data.isSome ∧ ¬ rcpt.isSuccess ∧ ¬ rcpt.isLoading then
    ({ s with txStatus := .approving }, [])
  else if rcpt.isLoading then
    ({ s with txStatus := .approving }, [])
  else if rcpt.isSuccess then
    ({ s with txStatus := .waitingForSignature },
      [ .toastSuccess "Token approved! Proceeding with payment...",
        .orderWrite (s.requestId.getD "")])
  else if approve.isError ∨ rcpt.isError then
    ({ s with txStatus := .error }, [ .toastError "Token approval failed"])
  else (s, [])

/-- The `handlePostTransaction` callback of the airtime page: dedup by the last
dispatched hash, then POST to the backend.  `outcome` is `none` on backend
success and `some msg` when the call rejects with message `msg`. -/
def airtimeHandlePostTransaction (s : FlowState) (h : String)
    (outcome : Option String) : FlowState × List Action :=
  if s.backendRef = some h then (s, [])
  else
    let s1 : FlowState := { s with backendRef := some h, txStatus := .backendProcessing }
    match outcome with
    | none =>
        ({ s1 with txStatus := .backendSuccess },
          [ .backendCall (s.requestId.getD "") h,
            .toastSuccess "Airtime delivered successfully!"])
    | some _ =>
        ({ s1 with txStatus := .backendError },
          [ .backendCall (s.requestId.getD "") h])

/-- The main-transaction-monitor effect of the airtime page.  On a confirmed
receipt it invokes `handlePostTransaction` with the transaction hash. -/
def airtimeMainEffect (main : WriteState) (rcpt : ReceiptState)
    (outcome : Option String) (s : FlowState) : FlowState × List Action :=
  if ¬ s.showModal then (s, [])
  else if s.txStatus = .waitingForApprovalSignature ∨ s.txStatus = .approving ∨
      s.txStatus = .approvalSuccess then (s, [])
  else if main.isPending then
    ({ s with txStatus := .waitingForSignature, backendRef := none }, [])
  else if main.data.isSome ∧ ¬ rcpt.isSuccess ∧ ¬ rcpt.isLoading then
    ({ s with txStatus := .sending }, [])
  else if rcpt.isLoading then
    ({ s with txStatus := .confirming }, [])
  else if rcpt.isSuccess then
    if s.txStatus ≠ .backendProcessing ∧ s.txStatus ≠ .backendSuccess ∧
        s.txStatus ≠ .backendError then
      match main.data with
      | some h => airtimeHandlePostTransaction { s with txStatus := .success } h outcome
      | none => ({ s with txStatus := .success }, [])
    else (s, [])
  else if main.isError ∨ rcpt.isError then
    ({ s with txStatus := .error }, [ .toastError "Transaction failed"])
  else (s, [])

/-- The `handleCloseModal` handler of the airtime page: refuses to close during
the listed critical phases, otherwise resets the modal state. -/
def airtimeHandleCloseModal (s : FlowState) : FlowState × List Action :=
  if s.txStatus = .waitingForApprovalSignature ∨ s.txStatus = .approving ∨
      s.txStatus = .waitingForSignature ∨ s.txStatus = .sending ∨
      s.txStatus = .confirming ∨ s.txStatus = .backendProcessing then
    (s, [ .toastInfo "Please wait for the transaction to complete before closing."])
  else
    ({ s with showModal := false, txStatus := .idle, backendRef := none }, [])

/-- External events driving the airtime flow machine. -/
inductive AirtimeEvent where
  | click (fresh : String)
  | approvalUpdate (approve : WriteState) (rcpt : ReceiptState)
  | mainUpdate (main : WriteState) (rcpt : ReceiptState) (outcome : Option String)
  | closeModal
  deriving Repr

/-- One step of the airtime flow: an event dispatches to the corresponding
handler or effect of the page. -/
def airtimeStep (f : AirtimeForm) (s : FlowState) : AirtimeEvent → FlowState × List Action
  | .click fresh => airtimeHandlePurchase f s fresh
  | .approvalUpdate approve rcpt => airtimeApprovalEffect approve rcpt s
  | .mainUpdate main rcpt outcome => airtimeMainEffect main rcpt outcome s
  | .closeModal => airtimeHandleCloseModal s

end AirtimePage

section ElectricityPage

/-!
Model of src/app/electricity/page.tsx.  The page has no `getOrder` read: its
handlePurchase performs no order-existence check before submitting.
-/

/-- Render inputs of the electricity page fixed during one flow run. -/
structure ElecForm where
  authenticated : Bool
  isOnBaseChain : Bool
  address : Option String
  token : Option Token
  amountNGN : ℚ
  priceNGN : Option ℚ
  verificationSuccess : Bool
  customerName : String
  deriving DecidableEq, Repr

/-- Derived `cryptoNeeded` of the electricity page (same expression as the
airtime page). -/
def ElecForm.cryptoNeeded (f : ElecForm) : ℚ :=
  if truthyPrice f.priceNGN ∧ f.amountNGN ≠ 0 then f.amountNGN / (f.priceNGN.getD 0) else 0

/-- Derived `tokenAmountForOrder` of the electricity page. -/
def ElecForm.tokenAmount (f : ElecForm) : ℤ :=
  match f.token with
  | some tk => quoteUnits f.cryptoNeeded tk.decimals
  | none => 0

/-- Wallet precondition of the electricity `ensureWalletConnected`. -/
def ElecForm.walletOk (f : ElecForm) : Bool :=
  f.authenticated && f.address.isSome && f.isOnBaseChain

/-- The `handlePurchase` handler of the electricity page.  Note: the only
amount validation is `amountNGN <= 0`; there is no range check and no
order-existence check in this flow. -/
def elecHandlePurchase (f : ElecForm) (s : FlowState) (fresh : String) :
    FlowState × List Action :=
  if ¬ f.walletOk then
    ({ s with showModal := false, txStatus := .idle, backendRef := none }, [])
  else if f.address = none then
    ({ s with showModal := true, txStatus := .error, backendRef := none },
      [ .toastError "Wallet address not found after connection. Please refresh and try again."])
  else if s.requestId = none then
    ({ s with showModal := true, txStatus := .error, backendRef := none },
      [ .toastError "Request ID not generated. Please fill all form details."])
  else if ¬ f.verificationSuccess ∨ f.customerName = "" then
    ({ s with showModal := true, txStatus := .error, backendRef := none },
      [ .toastError "Please verify meter number before proceeding with purchase."])
  else if f.amountNGN ≤ 0 then
    ({ s with showModal := true, txStatus := .error, backendRef := none },
      [ .toastError "Please enter a valid amount."])
  else if f.token = none then
    ({ s with showModal := true, txStatus := .error, backendRef := none },
      [ .toastError "Please select a token."])
  else if f.tokenAmount = 0 then
    ({ s with showModal := true, txStatus := .idle, backendRef := none, requestId := some fresh },
      [ .toastError "Amount too low. Please enter a valid amount."])
  else if (f.token.map Token.address).getD "" = "" then
    ({ s with showModal := true, txStatus := .error, backendRef := none },
      [ .toastError "Selected token has no contract address for approval."])
  else
    ({ s with showModal := true, txStatus := .waitingForApprovalSignature, backendRef := none, requestId := some fresh },
      [ .toastInfo "Approving token spend for this transaction...",
        .approveWrite])

/-- The approval-monitor effect of the electricity page; on a confirmed
approval it fires the delayed `createOrder` write with the current-state key. -/
def elecApprovalEffect (approve : WriteState) (rcpt : ReceiptState)
    (s : FlowState) : FlowState × List Action :=
  if ¬ s.showModal then (s, [])
  else if approve.isPending then
    ({ s with txStatus := .waitingForApprovalSignature, backendRef := none },
      [ .toastInfo "Awaiting token approval signature..."])
  else if approve.data.isSome ∧ ¬ rcpt.isSuccess ∧ ¬ rcpt.isLoading then
    ({ s with txStatus := .sending }, [])
  else if rcpt.isLoading then
    ({ s with txStatus := .approving }, [])
  else if rcpt.isSuccess then
    ({ s with txStatus := .waitingForSignature },
      [ .toastSuccess "Token approved for unlimited spending! Proceeding with payment...",
        .orderWrite (s.requestId.getD "")])
  else if approve.isError ∨ rcpt.isError then
    ({ s with txStatus := .approvalError }, [ .toastError "Token approval failed"])
  else (s, [])

/-- The `handlePostTransaction` callback of the electricity page. -/
def elecHandlePostTransaction (s : FlowState) (h : String)
    (outcome : Option String) : FlowState × List Action :=
  if s.backendRef = some h then (s, [])
  else
    let s1 : FlowState := { s with backendRef := some h, txStatus := .backendProcessing }
    match outcome with
    | none =>
        ({ s1 with txStatus := .backendSuccess },
          [ .backendCall (s.requestId.getD "") h,
            .toastSuccess "Electricity bill paid successfully!"])
    | some _ =>
        ({ s1 with txStatus := .backendError },
          [ .backendCall (s.requestId.getD "") h])

/-- The main-transaction-monitor effect of the electricity page (the write
error branch is checked first in this variant, and an idle-reset branch closes
the chain). -/
def elecMainEffect (main : WriteState) (rcpt : ReceiptState)
    (outcome : Option String) (s : FlowState) : FlowState × List Action :=
  if ¬ s.showModal then (s, [])
  else if s.txStatus = .waitingForApprovalSignature ∨ s.txStatus = .approving ∨
      s.txStatus = .approvalSuccess ∨ s.txStatus = .approvalError then (s, [])
  else if main.isError then
    ({ s with txStatus := .error }, [ .toastError "Wallet transaction failed or was rejected."])
  else if main.isPending then
    ({ s with txStatus := .waitingForSignature, backendRef := none }, [])
  else if main.data.isSome ∧ ¬ rcpt.isSuccess ∧ ¬ rcpt.isLoading then
    ({ s with txStatus := .sending }, [])
  else if rcpt.isLoading then
    ({ s with txStatus := .confirming }, [])
  else if rcpt.isSuccess then
    if s.txStatus ≠ .backendProcessing ∧ s.txStatus ≠ .backendSuccess ∧
        s.txStatus ≠ .backendError then
      match main.data with
      | some h => elecHandlePostTransaction { s with txStatus := .success } h outcome
      | none => ({ s with txStatus := .success }, [])
    else (s, [])
  else if rcpt.isError then
    ({ s with txStatus := .error }, [ .toastError "Blockchain transaction failed to confirm."])
  else
    if s.txStatus ≠ .backendProcessing ∧ s.txStatus ≠ .backendSuccess ∧
        s.txStatus ≠ .backendError then
      ({ s with txStatus := .idle }, [])
    else (s, [])

/-- The `handleCloseModal` handler of the electricity page (same blocked set
as the airtime page). -/
def elecHandleCloseModal (s : FlowState) : FlowState × List Action :=
  if s.txStatus = .waitingForApprovalSignature ∨ s.txStatus = .approving ∨
      s.txStatus = .waitingForSignature ∨ s.txStatus = .sending ∨
      s.txStatus = .confirming ∨ s.txStatus = .backendProcessing then
    (s, [ .toastInfo "Please wait for the transaction to complete before closing."])
  else
    ({ s with showModal := false, txStatus := .idle, backendRef := none }, [])

/-- External events driving the electricity flow machine. -/
inductive ElecEvent where
  | click (fresh : String)
  | approvalUpdate (approve : WriteState) (rcpt : ReceiptState)
  | mainUpdate (main : WriteState) (rcpt : ReceiptState) (outcome : Option String)
  | closeModal
  deriving Repr

/-- One step of the electricity flow. -/
def elecStep (f : ElecForm) (s : FlowState) : ElecEvent → FlowState × List Action
  | .click fresh => elecHandlePurchase f s fresh
  | .approvalUpdate approve rcpt => elecApprovalEffect approve rcpt s
  | .mainUpdate main rcpt outcome => elecMainEffect main rcpt outcome s
  | .closeModal => elecHandleCloseModal s

end ElectricityPage

section EnhancedAirtimePage

/-!
Model of the enhanced-wallet airtime variant in src/unnamed/part_004 together
with the hook it uses, src/unnamed/part_003 (useEnhancedWalletTransaction).

In this variant `handlePurchase` performs the whole submission sequence
inline: it awaits `approveToken` — whose promise resolves as soon as the
approval transaction is broadcast (for an external wallet, wagmi
`writeContract` returns void immediately; for an embedded wallet,
`sendTransaction` resolves with the hash) — then sleeps a fixed 2000 ms and
broadcasts `createOrder`.  It never consults the approval confirmation state
(`isConfirmed` of the hook), so the form carries that value as an input the
function ignores.  The `createOrder` arguments are the closure values of the
render in which `handlePurchase` was created, so the submitted key is the
pre-regeneration `requestId`.
-/

/-- Outcome of the awaited `approveToken` call: `resolved` when the promise
resolves (the broadcast was accepted; confirmation is not awaited), `threw`
when it rejects synchronously (embedded wallet rejection). -/
inductive ApproveOutcome where
  | resolved
  | threw (msg : String)
  deriving DecidableEq, Repr

/-- Render inputs of the enhanced airtime variant fixed during one run.
`approvalConfirmed` mirrors the `isConfirmed` flag the hook exposes for the
approval transaction; the handler does not read it. -/
structure Part4Form where
  authenticated : Bool
  isOnBaseChain : Bool
  address : Option String
  token : Option Token
  amountNGN : ℚ
  phoneLen : Nat
  priceNGN : Option ℚ
  existingOrderUser : Option String
  approvalConfirmed : Bool
  deriving DecidableEq, Repr

/-- Derived `cryptoNeeded` of the enhanced airtime variant. -/
def Part4Form.cryptoNeeded (f : Part4Form) : ℚ :=
  if truthyPrice f.priceNGN ∧ f.amountNGN ≠ 0 then f.amountNGN / (f.priceNGN.getD 0) else 0

/-- Derived `tokenAmountForOrder` of the enhanced airtime variant. -/
def Part4Form.tokenAmount (f : Part4Form) : ℤ :=
  match f.token with
  | some tk => quoteUnits f.cryptoNeeded tk.decimals
  | none => 0

/-- Order-existence hit test of the enhanced airtime variant. -/
def Part4Form.orderExists (f : Part4Form) : Bool :=
  match f.existingOrderUser with
  | some u => u != "" && u != zeroAddress
  | none => false

/-- Wallet precondition of the enhanced `ensureWalletConnected`. -/
def Part4Form.walletOk (f : Part4Form) : Bool :=
  f.authenticated && f.address.isSome && f.isOnBaseChain

/-- The `handlePurchase` handler of the enhanced airtime variant.  On the
submission path it emits the approval broadcast and — when `approveToken`
resolved — the `createOrder` broadcast with the closure key, without awaiting
the approval confirmation; the key regeneration at the end of the function runs
on every path that reaches the try block. -/
def part4HandlePurchase (f : Part4Form) (s : FlowState) (fresh : String)
    (outcome : ApproveOutcome) : FlowState × List Action :=
  if ¬ f.walletOk then
    ({ s with showModal := false, txStatus := .idle, backendRef := none }, [])
  else if f.address = none ∨ s.requestId = none ∨ f.token = none ∨ f.amountNGN ≤ 0 then
    ({ s with showModal := true, txStatus := .error, backendRef := none },
      [ .toastError "Please check all form fields and wallet connection."])
  else if f.phoneLen < 10 ∨ 11 < f.phoneLen then
    ({ s with showModal := true, txStatus := .error, backendRef := none },
      [ .toastError "Please enter a valid Nigerian phone number (10-11 digits)."])
  else if f.amountNGN < 100 ∨ 50000 < f.amountNGN then
    ({ s with showModal := true, txStatus := .error, backendRef := none },
      [ .toastError "Amount must be between 100 and 50,000 naira."])
  else if ¬ truthyPrice f.priceNGN ∨ f.cryptoNeeded ≤ 0 then
    ({ s with showModal := true, txStatus := .error, backendRef := none },
      [ .toastError "Unable to calculate crypto amount. Please try again."])
  else if f.tokenAmount ≤ 0 then
    ({ s with showModal := true, txStatus := .error, backendRef := none },
      [ .toastError "Invalid token amount calculated. Please try again."])
  else if f.orderExists then
    ({ s with showModal := true, txStatus := .error, backendRef := none, requestId := some fresh },
      [ .guardCheck (s.requestId.getD ""),
        .toastError "Order already exists for this request. Please refresh and try again."])
  else if (f.token.map Token.address).getD "" = "" then
    ({ s with showModal := true, txStatus := .error, backendRef := none },
      [ .guardCheck (s.requestId.getD ""),
        .toastError "Selected crypto has no contract address."])
  else
    match outcome with
    | .resolved =>
        ({ s with showModal := true, txStatus := .waitingForSignature, backendRef := none, requestId := some fresh },
          [ .guardCheck (s.requestId.getD ""),
            .toastInfo "Approving token spend...",
            .approveWrite,
            .orderWrite (s.requestId.getD "")])
    | .threw _ =>
        ({ s with showModal := true, txStatus := .error, backendRef := none, requestId := some fresh },
          [ .guardCheck (s.requestId.getD ""),
            .toastInfo "Approving token spend...",
            .approveWrite,
            .toastError "Transaction failed."])

/-- The `handlePostTransaction` callback of the enhanced airtime variant
(identical dedup structure to the airtime page). -/
def part4HandlePostTransaction (s : FlowState) (h : String)
    (outcome : Option String) : FlowState × List Action :=
  if s.backendRef = some h then (s, [])
  else
    let s1 : FlowState := { s with backendRef := some h, txStatus := .backendProcessing }
    match outcome with
    | none =>
        ({ s1 with txStatus := .backendSuccess },
          [ .backendCall (s.requestId.getD "") h,
            .toastSuccess "Airtime delivered successfully!"])
    | some _ =>
        ({ s1 with txStatus := .backendError },
          [ .backendCall (s.requestId.getD "") h])

/-- The single transaction-monitor effect of the enhanced airtime variant
(the hook exposes one unified hash; on confirmation it invokes
`handlePostTransaction` with it). -/
def part4TxEffect (tx : WriteState) (rcpt : ReceiptState)
    (outcome : Option String) (s : FlowState) : FlowState × List Action :=
  if ¬ s.showModal then (s, [])
  else if tx.isPending then
    ({ s with txStatus := .waitingForSignature, backendRef := none }, [])
  else if tx.data.isSome ∧ ¬ rcpt.isSuccess ∧ ¬ rcpt.isLoading then
    ({ s with txStatus := .sending }, [])
  else if rcpt.isLoading then
    ({ s with txStatus := .confirming }, [])
  else if rcpt.isSuccess then
    if s.txStatus ≠ .backendProcessing ∧ s.txStatus ≠ .backendSuccess ∧
        s.txStatus ≠ .backendError then
      match tx.data with
      | some h => part4HandlePostTransaction { s with txStatus := .success } h outcome
      | none => ({ s with txStatus := .success }, [])
    else (s, [])
  else if tx.isError then
    ({ s with txStatus := .error }, [ .toastError "Transaction failed"])
  else (s, [])

/-- The `handleCloseModal` handler of the enhanced airtime variant (same
blocked set as the airtime page). -/
def part4HandleCloseModal (s : FlowState) : FlowState × List Action :=
  if s.txStatus = .waitingForApprovalSignature ∨ s.txStatus = .approving ∨
      s.txStatus = .waitingForSignature ∨ s.txStatus = .sending ∨
      s.txStatus = .confirming ∨ s.txStatus = .backendProcessing then
    (s, [ .toastInfo "Please wait for the transaction to complete before closing."])
  else
    ({ s with showModal := false, txStatus := .idle, backendRef := none }, [])

/-- External events driving the enhanced airtime flow machine. -/
inductive Part4Event where
  | click (fresh : String) (outcome : ApproveOutcome)
  | txUpdate (tx : WriteState) (rcpt : ReceiptState) (outcome : Option String)
  | closeModal
  deriving Repr

/-- One step of the enhanced airtime flow. -/
def part4Step (f : Part4Form) (s : FlowState) : Part4Event → FlowState × List Action
  | .click fresh outcome => part4HandlePurchase f s fresh outcome
  | .txUpdate tx rcpt outcome => part4TxEffect tx rcpt outcome s
  | .closeModal => part4HandleCloseModal s

end EnhancedAirtimePage

section BackendErrors

/-!
Model of the backend failure handling shared by the handlePostTransaction
catch blocks of the purchase pages.
-/

/-- Substring occurrence test on character lists. -/
def listContains (hay needle : List Char) : Bool :=
  match hay with
  | [] => needle.isEmpty
  | c :: t => needle.isPrefixOf (c :: t) || listContains t needle

/-- JavaScript `hay.includes(needle)` on strings. -/
def jsIncludes (hay needle : String) : Bool :=
  listContains hay.toList needle.toList

/-- The error classification of the handlePostTransaction catch block: three
fixed rewrites tested in order, otherwise the message is kept unmodified. -/
def classifyBackendError (msg : String) : String :=
  if jsIncludes msg "HTML instead of JSON" then
    "Server error occurred. Please try again or contact support."
  else if jsIncludes msg "Invalid JSON" then
    "Communication error with server. Please try again."
  else if jsIncludes msg "Failed to fetch" then
    "Network error. Please check your connection and try again."
  else msg

/-- The surfaced message template of the catch block:
the classified message followed by the request id. -/
def surfacedBackendMessage (msg requestId : String) : String :=
  classifyBackendError msg ++ ". Request ID: " ++ requestId

end BackendErrors

section RequestIdGenerator

/-!
Model of `generateRequestId` (a decimal millisecond timestamp, a dash, and an
uppercased base-36 suffix) and of the fixed-width encoding
`toHex(toBytes(requestId), size 32)` applied to it.  Keys are lists of
characters; all characters involved are ASCII, so the UTF-8 byte encoding maps
each character to one byte.
-/

/-- Decimal representation of a natural number as a character list (the
`Number.prototype.toString()` rendering of `Date.now()`). -/
def decimalRepr (t : Nat) : List Char :=
  if t = 0 then ['0'] else ((Nat.digits 10 t).reverse.map Nat.digitChar)

/-- The `generateRequestId` output for timestamp `t` and random suffix
`suffix`: decimal timestamp, a dash, then the suffix. -/
def generateRequestId (t : Nat) (suffix : List Char) : List Char :=
  decimalRepr t ++ '-' :: suffix

/-- The characters `Math.random().toString(36).toUpperCase()` can produce. -/
def base36Upper : List Char := "0123456789ABCDEFGHIJKLMNOPQRSTUVWXYZ".toList

/-- Byte encoding of an ASCII key (`toBytes`): one byte per character. -/
def asciiBytes (key : List Char) : List Nat := key.map Char.toNat

/-- The `toHex(bytes, size 32)` encoding: defined exactly when the input fits
in 32 bytes, in which case it zero-pads on the right; viem throws otherwise. -/
def toHexBytes32 (bytes : List Nat) : Option (List Nat) :=
  if bytes.length ≤ 32 then some (bytes ++ List.replicate (32 - bytes.length) 0) else none

/-- Recovery of the timestamp from a generated key: the decimal digits before
the first dash. -/
def timestampOfKey (key : List Char) : Nat :=
  Nat.ofDigits 10 (((key.takeWhile (fun c => c != '-')).map (fun c => c.toNat - 48)).reverse)

end RequestIdGenerator

section DedupIteration

/-!
Iteration of the handlePostTransaction callbacks, counting backend calls.
-/

/-- Number of backend network calls in an action list. -/
def backendCallCount (acts : List Action) : Nat :=
  (acts.filter fun a => match a with | .backendCall _ _ => true | _ => false).length

/-- Iterate an invocation `n` times from a state, summing backend calls. -/
def iterateInvocations (g : FlowState → FlowState × List Action) :
    Nat → FlowState → FlowState × Nat
  | 0, s => (s, 0)
  | n + 1, s =>
      let r := g s
      let rest := iterateInvocations g n r.1
      (rest.1, backendCallCount r.2 + rest.2)

/-- Number of order-existence consultations in an action list. -/
def guardCheckCount (acts : List Action) : Nat :=
  (acts.filter fun a => match a with | .guardCheck _ => true | _ => false).length

/-- Number of `createOrder` broadcasts in an action list. -/
def orderWriteCount (acts : List Action) : Nat :=
  (acts.filter fun a => match a with | .orderWrite _ => true | _ => false).length

/-- Number of ERC20 `approve` broadcasts in an action list. -/
def approveWriteCount (acts : List Action) : Nat :=
  (acts.filter fun a => match a with | .approveWrite => true | _ => false).length

/-- The blocked-close status set shared by the guarded `handleCloseModal`
handlers. -/
def blockedClose (t : TxStatus) : Bool :=
  t = .waitingForApprovalSignature ∨ t = .approving ∨ t = .waitingForSignature ∨
    t = .sending ∨ t = .confirming ∨ t = .backendProcessing

/-- Whether an airtime-flow event is an approval update carrying a confirmed
approval receipt. -/
def AirtimeEvent.approvalConfirmedEvent : AirtimeEvent → Bool
  | .approvalUpdate _ rcpt => rcpt.isSuccess
  | _ => false

/-- Whether an electricity-flow event is an approval update carrying a
confirmed approval receipt. -/
def ElecEvent.approvalConfirmedEvent : ElecEvent → Bool
  | .approvalUpdate _ rcpt => rcpt.isSuccess
  | _ => false

theorem iterate_zero_calls (g : FlowState → FlowState × List Action) (h : String)
    (hskip : ∀ s : FlowState, s.backendRef = some h → g s = (s, [])) :
    ∀ n : Nat, ∀ s : FlowState, s.backendRef = some h →
      (iterateInvocations g n s).2 = 0 := by
  intro n
  induction n with
  | zero => intro s _; rfl
  | succ n ih =>
      intro s hs
      show (let r := g s
            let rest := iterateInvocations g n r.1
            (rest.1, backendCallCount r.2 + rest.2)).2 = 0
      rw [hskip s hs]
      simpa [backendCallCount] using ih s hs

theorem iterate_one_call (g : FlowState → FlowState × List Action) (h : String)
    (hskip : ∀ s : FlowState, s.backendRef = some h → g s = (s, []))
    (hfire : ∀ s : FlowState, s.backendRef ≠ some h →
      (g s).1.backendRef = some h ∧ backendCallCount (g s).2 = 1) :
    ∀ n : Nat, ∀ s : FlowState, s.backendRef ≠ some h →
      (iterateInvocations g (n + 1) s).2 = 1 := by
  intro n s hs
  show (let r := g s
        let rest := iterateInvocations g n r.1
        (rest.1, backendCallCount r.2 + rest.2)).2 = 1
  have hf := hfire s hs
  have hz := iterate_zero_calls g h hskip n (g s).1 hf.1
  simp only []
  omega

end DedupIteration

section Fixtures

/-- Concrete token fixture used by witnesses and counterexamples. -/
def tokUSDC : Token := ⟨"0x833589fCD6eDb6E08f4c7C32D4f71b54bdA02913", "USDC", 6⟩

/-- Airtime render fixture on the happy path. -/
def airFormOk : AirtimeForm :=
  ⟨true, true, some "0x1111", some tokUSDC, 1000, 11, some 5000, none⟩

/-- Airtime render fixture whose current key already has an on-chain order. -/
def airFormUsed : AirtimeForm := { airFormOk with existingOrderUser := some "0xdead" }

/-- Airtime render fixture with an extreme spot price that quantizes the
quote to zero. -/
def airFormHighPrice : AirtimeForm :=
  { airFormOk with amountNGN := 100, priceNGN := some 1000000000 }

/-- Airtime render fixture with no spot price available. -/
def airFormNoPrice : AirtimeForm := { airFormOk with priceNGN := none }

/-- Electricity render fixture on the happy path. -/
def elecFormOk : ElecForm :=
  ⟨true, true, some "0x1111", some tokUSDC, 1000, some 5000, true, "JOHN DOE"⟩

/-- Electricity render fixture with an amount below the 100-naira bound. -/
def elecForm50 : ElecForm := { elecFormOk with amountNGN := 50 }

/-- Enhanced airtime render fixture on the happy path with the approval
transaction not confirmed. -/
def part4FormOk : Part4Form :=
  ⟨true, true, some "0x1111", some tokUSDC, 1000, 11, some 5000, none, false⟩

/-- Enhanced airtime render fixture whose current key already has an on-chain
order. -/
def part4FormUsed : Part4Form := { part4FormOk with existingOrderUser := some "0xdead" }

/-- Idle flow state holding the given key. -/
def idleWith (k : String) : FlowState := ⟨.idle, some k, false, none⟩

end Fixtures

section HelperProofs

theorem takeWhile_append_of_false {α : Type} (p : α → Bool) (l : List α) (x : α)
    (r : List α) (hl : ∀ c ∈ l, p c = true) (hx : p x = false) :
    (l ++ x :: r).takeWhile p = l := by
  induction l with
  | nil => simp [List.takeWhile, hx]
  | cons a l ih =>
      have ha : p a = true := hl a (List.mem_cons_self a l)
      simp only [List.cons_append, List.takeWhile_cons, ha, if_true]
      rw [ih (fun c hc => hl c (List.mem_cons_of_mem a hc))]

theorem digitChar_ne_dash {d : Nat} (hd : d < 10) : (Nat.digitChar d != '-') = true := by
  interval_cases d <;> decide

theorem digitChar_val {d : Nat} (hd : d < 10) : (Nat.digitChar d).toNat - 48 = d := by
  interval_cases d <;> decide

/-- The timestamp segment of a generated key recovers the timestamp. -/
theorem timestampOfKey_generateRequestId (t : Nat) (suffix : List Char) :
    timestampOfKey (generateRequestId t suffix) = t := by
  unfold timestampOfKey generateRequestId
  by_cases h0 : t = 0
  · subst h0
    simp [decimalRepr, Nat.ofDigits]
  · have hchars : ∀ c ∈ decimalRepr t, (c != '-') = true := by
      intro c hc
      unfold decimalRepr at hc
      rw [if_neg h0] at hc
      obtain ⟨d, hd, rfl⟩ := List.mem_map.mp hc
      exact digitChar_ne_dash (Nat.digits_lt_base (by norm_num) (List.mem_reverse.mp hd))
    rw [takeWhile_append_of_false _ _ _ _ hchars (by decide)]
    unfold decimalRepr
    rw [if_neg h0, List.map_map]
    have hmap : ((Nat.digits 10 t).reverse.map fun d => (Nat.digitChar d).toNat - 48)
        = (Nat.digits 10 t).reverse := by
      apply List.map_congr_left ?_ |>.trans (List.map_id _)
      intro d hd
      exact digitChar_val (Nat.digits_lt_base (by norm_num) (List.mem_reverse.mp hd))
    show Nat.ofDigits 10 (((Nat.digits 10 t).reverse.map
      fun d => (Nat.digitChar d).toNat - 48).reverse) = t
    rw [hmap, List.reverse_reverse, Nat.ofDigits_digits]

/-- Length bound for the decimal rendering of a JavaScript timestamp (the
maximal JavaScript date is 8.64e15 milliseconds). -/
theorem decimalRepr_length_le (t : Nat) (ht : t ≤ 8640000000000000) :
    (decimalRepr t).length ≤ 16 := by
  unfold decimalRepr
  by_cases h0 : t = 0
  · simp [h0]
  · rw [if_neg h0]
    rw [List.length_map, List.length_reverse]
    rw [Nat.digits_len 10 t (by norm_num) h0]
    have : Nat.log 10 t < 16 := Nat.log_lt_of_lt_pow h0 (by omega)
    omega

end HelperProofs

section ClaimC8

/-- C8: on a backend fulfillment failure, the error message is classified into
one of three fixed user-facing messages (server error, communication/parse
error, connectivity error) or kept unmodified, and the surfaced message always
contains the idempotency key (it is of the form prefix-plus-key). -/
theorem C8_backend_error_classification (msg requestId : String) :
    (classifyBackendError msg =
        "Server error occurred. Please try again or contact support." ∨
     classifyBackendError msg =
        "Communication error with server. Please try again." ∨
     classifyBackendError msg =
        "Network error. Please check your connection and try again." ∨
     classifyBackendError msg = msg) ∧
    surfacedBackendMessage msg requestId =
      (classifyBackendError msg ++ ". Request ID: ") ++ requestId := by
  constructor
  · unfold classifyBackendError
    split_ifs <;> simp
  · rfl

end ClaimC8

section ClaimC10

/-- C10: every generated request id (decimal millisecond timestamp, a dash,
and an at-most-6-character base-36 suffix) byte-encodes to at most 32 bytes,
so the bytes32 encoding is defined and zero-pads without truncating; and two
keys generated at distinct timestamps are distinct. -/
theorem C10_requestId_bytes32_safe (t1 t2 : Nat) (s1 s2 : List Char)
    (ht : t1 ≤ 8640000000000000) (hs : s1.length ≤ 6)
    (hchars : ∀ c ∈ s1, c ∈ base36Upper) (hne : t1 ≠ t2) :
    (asciiBytes (generateRequestId t1 s1)).length ≤ 32 ∧
    toHexBytes32 (asciiBytes (generateRequestId t1 s1)) =
      some (asciiBytes (generateRequestId t1 s1) ++
        List.replicate (32 - (asciiBytes (generateRequestId t1 s1)).length) 0) ∧
    generateRequestId t1 s1 ≠ generateRequestId t2 s2 := by
  have hlen : (generateRequestId t1 s1).length ≤ 23 := by
    unfold generateRequestId
    have := decimalRepr_length_le t1 ht
    rw [List.length_append, List.length_cons]
    omega
  have hbytes : (asciiBytes (generateRequestId t1 s1)).length ≤ 32 := by
    unfold asciiBytes
    rw [List.length_map]
    omega
  refine ⟨hbytes, ?_, ?_⟩
  · unfold toHexBytes32
    rw [if_pos hbytes]
  · intro hkey
    apply hne
    rw [← timestampOfKey_generateRequestId t1 s1, hkey,
      timestampOfKey_generateRequestId]

/-- Witness for C10 at a concrete timestamp pair and suffixes. -/
theorem C10_requestId_bytes32_safe_witness :
    ((1730000000000 : Nat) ≤ 8640000000000000 ∧
     ("ABC".toList).length ≤ 6 ∧
     (∀ c ∈ "ABC".toList, c ∈ base36Upper) ∧
     (1730000000000 : Nat) ≠ 1730000000001) ∧
    ((asciiBytes (generateRequestId 1730000000000 ("ABC".toList))).length ≤ 32 ∧
     toHexBytes32 (asciiBytes (generateRequestId 1730000000000 ("ABC".toList))) =
       some (asciiBytes (generateRequestId 1730000000000 ("ABC".toList)) ++
         List.replicate
           (32 - (asciiBytes (generateRequestId 1730000000000 ("ABC".toList))).length) 0) ∧
     generateRequestId 1730000000000 ("ABC".toList) ≠
       generateRequestId 1730000000001 ("XY".toList)) :=
  ⟨⟨by decide, by decide, by decide, by decide⟩,
    C10_requestId_bytes32_safe 1730000000000 1730000000001 ("ABC".toList) ("XY".toList)
      (by decide) (by decide) (by decide) (by decide)⟩

end ClaimC10

section ClaimC3

/-- C3: for a confirmed hash, invoking the backend-submission path any number
of times results in exactly one backend call in each of the three modelled
flows: the stored last-dispatched hash short-circuits every invocation after
the first. -/
theorem C3_backend_call_dedup (s : FlowState) (h : String) (outcome : Option String)
    (n : Nat) (hres : s.backendRef ≠ some h) :
    (iterateInvocations (fun st => airtimeHandlePostTransaction st h outcome) (n + 1) s).2 = 1 ∧
    (iterateInvocations (fun st => elecHandlePostTransaction st h outcome) (n + 1) s).2 = 1 ∧
    (iterateInvocations (fun st => part4HandlePostTransaction st h outcome) (n + 1) s).2 = 1 := by
  refine ⟨?_, ?_, ?_⟩
  · apply iterate_one_call _ h ?_ ?_ n s hres
    · intro st hst
      unfold airtimeHandlePostTransaction
      rw [if_pos hst]
    · intro st hst
      unfold airtimeHandlePostTransaction
      rw [if_neg hst]
      cases outcome <;> exact ⟨rfl, rfl⟩
  · apply iterate_one_call _ h ?_ ?_ n s hres
    · intro st hst
      unfold elecHandlePostTransaction
      rw [if_pos hst]
    · intro st hst
      unfold elecHandlePostTransaction
      rw [if_neg hst]
      cases outcome <;> exact ⟨rfl, rfl⟩
  · apply iterate_one_call _ h ?_ ?_ n s hres
    · intro st hst
      unfold part4HandlePostTransaction
      rw [if_pos hst]
    · intro st hst
      unfold part4HandlePostTransaction
      rw [if_neg hst]
      cases outcome <;> exact ⟨rfl, rfl⟩

/-- Witness for C3: two invocations with one hash make exactly one call. -/
theorem C3_backend_call_dedup_witness :
    (⟨TxStatus.success, some "1730-AB", true, none⟩ : FlowState).backendRef ≠ some "0xabc" ∧
    ((iterateInvocations
        (fun st => airtimeHandlePostTransaction st "0xabc" none) 2
        ⟨TxStatus.success, some "1730-AB", true, none⟩).2 = 1 ∧
     (iterateInvocations
        (fun st => elecHandlePostTransaction st "0xabc" none) 2
        ⟨TxStatus.success, some "1730-AB", true, none⟩).2 = 1 ∧
     (iterateInvocations
        (fun st => part4HandlePostTransaction st "0xabc" none) 2
        ⟨TxStatus.success, some "1730-AB", true, none⟩).2 = 1) :=
  ⟨by decide,
    C3_backend_call_dedup ⟨TxStatus.success, some "1730-AB", true, none⟩ "0xabc" none 1
      (by decide)⟩

end ClaimC3

section ClaimC9

/-- C9 counterexample: closing the modal is permitted, not a no-op, in the
intermediate approvalSuccess state and in the post-confirmation success state
of the airtime flow: the modal is dismissed. -/
theorem C9_counterexample :
    (airtimeHandleCloseModal ⟨TxStatus.approvalSuccess, some "K", true, none⟩).1.showModal
      = false ∧
    (airtimeHandleCloseModal ⟨TxStatus.success, some "K", true, none⟩).1.showModal
      = false := by
  decide

/-- C9 amended: the close-modal handlers of the airtime, electricity and
enhanced airtime flows are no-ops exactly in the six states
waitingForApprovalSignature, approving, waitingForSignature, sending,
confirming and backendProcessing; in every other state — including
approvalSuccess and success — dismissal proceeds. -/
theorem C9_close_modal_blocked_set (s : FlowState) :
    (blockedClose s.txStatus = true →
      airtimeHandleCloseModal s =
        (s, [ .toastInfo "Please wait for the transaction to complete before closing."]) ∧
      elecHandleCloseModal s =
        (s, [ .toastInfo "Please wait for the transaction to complete before closing."]) ∧
      part4HandleCloseModal s =
        (s, [ .toastInfo "Please wait for the transaction to complete before closing."])) ∧
    (blockedClose s.txStatus = false →
      (airtimeHandleCloseModal s).1.showModal = false ∧
      (elecHandleCloseModal s).1.showModal = false ∧
      (part4HandleCloseModal s).1.showModal = false) := by
  obtain ⟨t, k, m, r⟩ := s
  cases t <;>
    simp [blockedClose, airtimeHandleCloseModal, elecHandleCloseModal, part4HandleCloseModal]

/-- Witness for the amended C9 in a blocked state. -/
theorem C9_close_modal_blocked_set_witness :
    blockedClose TxStatus.approving = true ∧
    airtimeHandleCloseModal ⟨TxStatus.approving, some "K", true, none⟩ =
      (⟨TxStatus.approving, some "K", true, none⟩,
        [ .toastInfo "Please wait for the transaction to complete before closing."]) :=
  ⟨by decide,
    ((C9_close_modal_blocked_set ⟨TxStatus.approving, some "K", true, none⟩).1
      (by decide)).1⟩

end ClaimC9

section ClaimC1

/-- C1 counterexample: (a) a full electricity purchase run — handlePurchase
followed by the approval-confirmation effect that broadcasts createOrder —
emits the createOrder write without a single order-existence consultation
(the electricity flow has no getOrder read at all); (b) in the effect-driven
airtime flow a happy-path run consults the guard only for the
pre-regeneration key K0 while the createOrder broadcast carries the
regenerated key K1: the guard is never invoked with the key that is
submitted. -/
theorem C1_counterexample :
    (Action.orderWrite "K1" ∈
      ((elecHandlePurchase elecFormOk (idleWith "K0") "K1").2 ++
        (elecApprovalEffect ⟨false, some "0xa1", false⟩ ⟨false, true, false⟩
          (elecHandlePurchase elecFormOk (idleWith "K0") "K1").1).2) ∧
    guardCheckCount
      ((elecHandlePurchase elecFormOk (idleWith "K0") "K1").2 ++
        (elecApprovalEffect ⟨false, some "0xa1", false⟩ ⟨false, true, false⟩
          (elecHandlePurchase elecFormOk (idleWith "K0") "K1").1).2) = 0) ∧
    (Action.guardCheck "K0" ∈
      (airtimeStep airFormOk (idleWith "K0") (.click "K1")).2 ∧
    Action.orderWrite "K1" ∈
      (airtimeStep airFormOk (airtimeStep airFormOk (idleWith "K0") (.click "K1")).1
        (.approvalUpdate ⟨false, some "0xa1", false⟩ ⟨false, true, false⟩)).2 ∧
    Action.guardCheck "K1" ∉
      ((airtimeStep airFormOk (idleWith "K0") (.click "K1")).2 ++
        (airtimeStep airFormOk (airtimeStep airFormOk (idleWith "K0") (.click "K1")).1
          (.approvalUpdate ⟨false, some "0xa1", false⟩ ⟨false, true, false⟩)).2) ∧
    ("K0" : String) ≠ "K1") := by
  constructor
  · have h1 : elecHandlePurchase elecFormOk (idleWith "K0") "K1" =
        (⟨.waitingForApprovalSignature, some "K1", true, none⟩,
          [ .toastInfo "Approving token spend for this transaction...", .approveWrite]) := by
      norm_num [elecHandlePurchase, elecFormOk, idleWith, ElecForm.walletOk,
        ElecForm.tokenAmount, ElecForm.cryptoNeeded, truthyPrice, quoteUnits, tokUSDC]
      all_goals decide
    rw [h1]
    decide
  · have hcl : airtimeStep airFormOk (idleWith "K0") (.click "K1") =
        (⟨.waitingForApprovalSignature, some "K1", true, none⟩,
          [ .guardCheck "K0", .toastInfo "Approving token spend for this transaction...",
            .approveWrite]) := by
      show airtimeHandlePurchase airFormOk (idleWith "K0") "K1" = _
      norm_num [airtimeHandlePurchase, airFormOk, idleWith, AirtimeForm.walletOk,
        AirtimeForm.orderExists, AirtimeForm.tokenAmount, AirtimeForm.cryptoNeeded,
        truthyPrice, quoteUnits, tokUSDC]
      all_goals decide
    rw [hcl]
    decide

/-- C1 amended: in the airtime flows every submission attempt that proceeds to
the on-chain broadcast first consults the order-existence guard, and on a hit
the flow aborts the submission, surfaces the request-already-used message,
enters the error state and regenerates the key; however, in the effect-driven
airtime page the guard is consulted with the pre-regeneration key while the
createOrder broadcast carries the key regenerated at the end of
handlePurchase, so the guard is not invoked with the key that will be
submitted (in the enhanced-wallet variant the consulted and the submitted key
coincide).  The electricity flow performs no order-existence check in any
step. -/
theorem C1_order_existence_guard :
    (∀ (f : AirtimeForm) (s : FlowState) (k fresh ah : String) (tk : Token),
      f.walletOk = true → f.address ≠ none → s.requestId = some k →
      f.token = some tk → 10 ≤ f.phoneLen → f.phoneLen ≤ 11 →
      100 ≤ f.amountNGN → f.amountNGN ≤ 50000 →
      truthyPrice f.priceNGN = true → 0 < f.cryptoNeeded → 0 < f.tokenAmount →
      f.orderExists = false → tk.address ≠ "" →
      Action.guardCheck k ∈ (airtimeStep f s (.click fresh)).2 ∧
      Action.approveWrite ∈ (airtimeStep f s (.click fresh)).2 ∧
      Action.orderWrite fresh ∈
        (airtimeStep f (airtimeStep f s (.click fresh)).1
          (.approvalUpdate ⟨false, some ah, false⟩ ⟨false, true, false⟩)).2) ∧
    (∀ (f : AirtimeForm) (s : FlowState) (fresh k : String) (tk : Token),
      f.walletOk = true → f.address ≠ none → s.requestId = some k →
      f.token = some tk → 10 ≤ f.phoneLen → f.phoneLen ≤ 11 →
      100 ≤ f.amountNGN → f.amountNGN ≤ 50000 →
      truthyPrice f.priceNGN = true → 0 < f.cryptoNeeded → 0 < f.tokenAmount →
      f.orderExists = true →
      airtimeHandlePurchase f s fresh =
        ({ s with showModal := true, txStatus := .error, backendRef := none, requestId := some fresh },
          [ .guardCheck k,
            .toastError "Order already exists for this request. Please refresh and try again."])) ∧
    (∀ (f : Part4Form) (s : FlowState) (k fresh : String) (tk : Token),
      f.walletOk = true → f.address ≠ none → s.requestId = some k →
      f.token = some tk → 10 ≤ f.phoneLen → f.phoneLen ≤ 11 →
      100 ≤ f.amountNGN → f.amountNGN ≤ 50000 →
      truthyPrice f.priceNGN = true → 0 < f.cryptoNeeded → 0 < f.tokenAmount →
      f.orderExists = false → tk.address ≠ "" →
      Action.guardCheck k ∈ (part4HandlePurchase f s fresh .resolved).2 ∧
      Action.orderWrite k ∈ (part4HandlePurchase f s fresh .resolved).2) ∧
    (∀ (f : Part4Form) (s : FlowState) (fresh k : String) (tk : Token)
        (outcome : ApproveOutcome),
      f.walletOk = true → f.address ≠ none → s.requestId = some k →
      f.token = some tk → 10 ≤ f.phoneLen → f.phoneLen ≤ 11 →
      100 ≤ f.amountNGN → f.amountNGN ≤ 50000 →
      truthyPrice f.priceNGN = true → 0 < f.cryptoNeeded → 0 < f.tokenAmount →
      f.orderExists = true →
      part4HandlePurchase f s fresh outcome =
        ({ s with showModal := true, txStatus := .error, backendRef := none, requestId := some fresh },
          [ .guardCheck k,
            .toastError "Order already exists for this request. Please refresh and try again."])) ∧
    (∀ (f : ElecForm) (s : FlowState) (e : ElecEvent),
      guardCheckCount (elecStep f s e).2 = 0) := by
  refine ⟨?_, ?_, ?_, ?_, ?_⟩
  · intro f s k fresh ah tk hw ha hk ht hph1 hph2 hlow hhigh hpr hcn hta hoe haddr
    have hamt : ¬ f.amountNGN ≤ 0 := not_le.mpr (lt_of_lt_of_le (by norm_num) hlow)
    have hclick : airtimeStep f s (.click fresh) =
        ({ s with showModal := true, txStatus := .waitingForApprovalSignature, backendRef := none, requestId := some fresh },
          [ .guardCheck k, .toastInfo "Approving token spend for this transaction...",
            .approveWrite]) := by
      show airtimeHandlePurchase f s fresh = _
      unfold airtimeHandlePurchase
      rw [if_neg (by simp [hw])]
      rw [if_neg (by push_neg; exact ⟨ha, by simp [hk], by simp [ht], not_le.mp hamt⟩)]
      rw [if_neg (by push_neg; exact ⟨hph1, hph2⟩)]
      rw [if_neg (by push_neg; exact ⟨hlow, hhigh⟩)]
      rw [if_neg (by push_neg; exact ⟨by simp [hpr], hcn⟩)]
      rw [if_neg (not_le.mpr hta)]
      rw [if_neg (by simp [hoe])]
      rw [if_neg (by simp [ht]; exact haddr)]
      rw [hk]
      rfl
    have hclick1 : (airtimeStep f s (.click fresh)).1 =
        { s with showModal := true, txStatus := .waitingForApprovalSignature, backendRef := none, requestId := some fresh } := by
      rw [hclick]
    refine ⟨?_, ?_, ?_⟩
    · rw [hclick]
      simp
    · rw [hclick]
      simp
    · rw [hclick1]
      show Action.orderWrite fresh ∈
        (airtimeApprovalEffect ⟨false, some ah, false⟩ ⟨false, true, false⟩ _).2
      unfold airtimeApprovalEffect
      norm_num
  · intro f s fresh k tk hw ha hk ht hph1 hph2 hlow hhigh hpr hcn hta hoe
    have hamt : ¬ f.amountNGN ≤ 0 := not_le.mpr (lt_of_lt_of_le (by norm_num) hlow)
    unfold airtimeHandlePurchase
    rw [if_neg (by simp [hw])]
    rw [if_neg (by push_neg; exact ⟨ha, by simp [hk], by simp [ht], not_le.mp hamt⟩)]
    rw [if_neg (by push_neg; exact ⟨hph1, hph2⟩)]
    rw [if_neg (by push_neg; exact ⟨hlow, hhigh⟩)]
    rw [if_neg (by push_neg; exact ⟨by simp [hpr], hcn⟩)]
    rw [if_neg (not_le.mpr hta)]
    rw [if_pos hoe, hk]
    rfl
  · intro f s k fresh tk hw ha hk ht hph1 hph2 hlow hhigh hpr hcn hta hoe haddr
    have hamt : ¬ f.amountNGN ≤ 0 := not_le.mpr (lt_of_lt_of_le (by norm_num) hlow)
    have hrun : part4HandlePurchase f s fresh .resolved =
        ({ s with showModal := true, txStatus := .waitingForSignature, backendRef := none, requestId := some fresh },
          [ .guardCheck k, .toastInfo "Approving token spend...", .approveWrite,
            .orderWrite k]) := by
      unfold part4HandlePurchase
      rw [if_neg (by simp [hw])]
      rw [if_neg (by push_neg; exact ⟨ha, by simp [hk], by simp [ht], not_le.mp hamt⟩)]
      rw [if_neg (by push_neg; exact ⟨hph1, hph2⟩)]
      rw [if_neg (by push_neg; exact ⟨hlow, hhigh⟩)]
      rw [if_neg (by push_neg; exact ⟨by simp [hpr], hcn⟩)]
      rw [if_neg (not_le.mpr hta)]
      rw [if_neg (by simp [hoe])]
      rw [if_neg (by simp [ht]; exact haddr)]
      rw [hk]
      rfl
    rw [hrun]
    exact ⟨by simp, by simp⟩
  · intro f s fresh k tk outcome hw ha hk ht hph1 hph2 hlow hhigh hpr hcn hta hoe
    have hamt : ¬ f.amountNGN ≤ 0 := not_le.mpr (lt_of_lt_of_le (by norm_num) hlow)
    unfold part4HandlePurchase
    rw [if_neg (by simp [hw])]
    rw [if_neg (by push_neg; exact ⟨ha, by simp [hk], by simp [ht], not_le.mp hamt⟩)]
    rw [if_neg (by push_neg; exact ⟨hph1, hph2⟩)]
    rw [if_neg (by push_neg; exact ⟨hlow, hhigh⟩)]
    rw [if_neg (by push_neg; exact ⟨by simp [hpr], hcn⟩)]
    rw [if_neg (not_le.mpr hta)]
    rw [if_pos hoe, hk]
    rfl
  · intro f s e
    have hpost : ∀ (st : FlowState) (h : String) (outcome : Option String),
        guardCheckCount (elecHandlePostTransaction st h outcome).2 = 0 := by
      intro st h outcome
      unfold elecHandlePostTransaction
      split_ifs
      · rfl
      · cases outcome <;> rfl
    cases e with
    | click fresh =>
        show guardCheckCount (elecHandlePurchase f s fresh).2 = 0
        unfold elecHandlePurchase
        split_ifs <;> rfl
    | approvalUpdate approve rcpt =>
        show guardCheckCount (elecApprovalEffect approve rcpt s).2 = 0
        unfold elecApprovalEffect
        split_ifs <;> rfl
    | mainUpdate main rcpt outcome =>
        show guardCheckCount (elecMainEffect main rcpt outcome s).2 = 0
        unfold elecMainEffect
        split_ifs
        all_goals try (cases main.data)
        all_goals first | exact hpost _ _ _ | rfl
    | closeModal =>
        show guardCheckCount (elecHandleCloseModal s).2 = 0
        unfold elecHandleCloseModal
        split_ifs <;> rfl

/-- Witness for the amended C1: a happy-path airtime run consults the guard
for the current key K0, proceeds to the approval broadcast, and the later
createOrder broadcast carries the regenerated key K1. -/
theorem C1_order_existence_guard_witness :
    (airFormOk.walletOk = true ∧ airFormOk.orderExists = false) ∧
    (Action.guardCheck "K0" ∈ (airtimeStep airFormOk (idleWith "K0") (.click "K1")).2 ∧
     Action.approveWrite ∈ (airtimeStep airFormOk (idleWith "K0") (.click "K1")).2 ∧
     Action.orderWrite "K1" ∈
       (airtimeStep airFormOk (airtimeStep airFormOk (idleWith "K0") (.click "K1")).1
         (.approvalUpdate ⟨false, some "0xa1", false⟩ ⟨false, true, false⟩)).2) :=
  ⟨⟨by decide, by decide⟩,
    C1_order_existence_guard.1 airFormOk (idleWith "K0") "K0" "K1" "0xa1" tokUSDC
      (by decide) (by decide) rfl rfl (by decide) (by decide)
      (by norm_num [airFormOk]) (by norm_num [airFormOk])
      (by norm_num [truthyPrice, airFormOk])
      (by norm_num [AirtimeForm.cryptoNeeded, truthyPrice, airFormOk])
      (by norm_num [AirtimeForm.tokenAmount, AirtimeForm.cryptoNeeded, truthyPrice,
        airFormOk, quoteUnits, tokUSDC])
      (by decide) (by decide)⟩

end ClaimC1

section ClaimC2

/-- C2 counterexample: in the enhanced-wallet airtime variant, a happy-path
handlePurchase run broadcasts the createOrder transaction even though the
approval transaction is not confirmed (the render input records the approval
confirmation flag as false and the handler never reads it). -/
theorem C2_counterexample :
    part4FormOk.approvalConfirmed = false ∧
    Action.approveWrite ∈
      (part4HandlePurchase part4FormOk (idleWith "K0") "K1" ApproveOutcome.resolved).2 ∧
    Action.orderWrite "K0" ∈
      (part4HandlePurchase part4FormOk (idleWith "K0") "K1" ApproveOutcome.resolved).2 := by
  have h1 : part4HandlePurchase part4FormOk (idleWith "K0") "K1" ApproveOutcome.resolved =
      (⟨.waitingForSignature, some "K1", true, none⟩,
        [ .guardCheck "K0", .toastInfo "Approving token spend...", .approveWrite,
          .orderWrite "K0"]) := by
    norm_num [part4HandlePurchase, part4FormOk, idleWith, Part4Form.walletOk,
      Part4Form.orderExists, Part4Form.tokenAmount, Part4Form.cryptoNeeded, truthyPrice,
      quoteUnits, tokUSDC]
    all_goals decide
  rw [h1]
  decide

/-- C2 amended: in the effect-driven airtime and electricity flows the
createOrder broadcast is emitted only by an approval-monitor step carrying a
confirmed approval receipt (so an approval that fails or is pending never leads
to the order broadcast); in the enhanced-wallet variant an approval call that
throws prevents the order broadcast, but a merely broadcast approval does not. -/
theorem C2_order_after_approval :
    (∀ (f : AirtimeForm) (s : FlowState) (e : AirtimeEvent),
      e.approvalConfirmedEvent = false → orderWriteCount (airtimeStep f s e).2 = 0) ∧
    (∀ (f : ElecForm) (s : FlowState) (e : ElecEvent),
      e.approvalConfirmedEvent = false → orderWriteCount (elecStep f s e).2 = 0) ∧
    (∀ (f : Part4Form) (s : FlowState) (fresh msg : String),
      orderWriteCount (part4HandlePurchase f s fresh (ApproveOutcome.threw msg)).2 = 0) := by
  have hpostA : ∀ (st : FlowState) (h : String) (outcome : Option String),
      orderWriteCount (airtimeHandlePostTransaction st h outcome).2 = 0 := by
    intro st h outcome
    unfold airtimeHandlePostTransaction
    split_ifs
    · rfl
    · cases outcome <;> rfl
  have hpostE : ∀ (st : FlowState) (h : String) (outcome : Option String),
      orderWriteCount (elecHandlePostTransaction st h outcome).2 = 0 := by
    intro st h outcome
    unfold elecHandlePostTransaction
    split_ifs
    · rfl
    · cases outcome <;> rfl
  refine ⟨?_, ?_, ?_⟩
  · intro f s e he
    cases e with
    | click fresh =>
        show orderWriteCount (airtimeHandlePurchase f s fresh).2 = 0
        unfold airtimeHandlePurchase
        split_ifs <;> rfl
    | approvalUpdate approve rcpt =>
        have hrs : rcpt.isSuccess = false := by
          simpa [AirtimeEvent.approvalConfirmedEvent] using he
        clear he
        show orderWriteCount (airtimeApprovalEffect approve rcpt s).2 = 0
        unfold airtimeApprovalEffect
        split_ifs <;> first | rfl | simp_all
    | mainUpdate main rcpt outcome =>
        show orderWriteCount (airtimeMainEffect main rcpt outcome s).2 = 0
        unfold airtimeMainEffect
        split_ifs
        all_goals try (cases main.data)
        all_goals first | exact hpostA _ _ _ | rfl
    | closeModal =>
        show orderWriteCount (airtimeHandleCloseModal s).2 = 0
        unfold airtimeHandleCloseModal
        split_ifs <;> rfl
  · intro f s e he
    cases e with
    | click fresh =>
        show orderWriteCount (elecHandlePurchase f s fresh).2 = 0
        unfold elecHandlePurchase
        split_ifs <;> rfl
    | approvalUpdate approve rcpt =>
        have hrs : rcpt.isSuccess = false := by
          simpa [ElecEvent.approvalConfirmedEvent] using he
        clear he
        show orderWriteCount (elecApprovalEffect approve rcpt s).2 = 0
        unfold elecApprovalEffect
        split_ifs <;> first | rfl | simp_all
    | mainUpdate main rcpt outcome =>
        show orderWriteCount (elecMainEffect main rcpt outcome s).2 = 0
        unfold elecMainEffect
        split_ifs
        all_goals try (cases main.data)
        all_goals first | exact hpostE _ _ _ | rfl
    | closeModal =>
        show orderWriteCount (elecHandleCloseModal s).2 = 0
        unfold elecHandleCloseModal
        split_ifs <;> rfl
  · intro f s fresh msg
    unfold part4HandlePurchase
    split_ifs <;> rfl

/-- Witness for the amended C2: a failed approval receipt in the airtime flow
yields no order broadcast. -/
theorem C2_order_after_approval_witness :
    (AirtimeEvent.approvalUpdate ⟨false, some "0xa1", true⟩
        ⟨false, false, true⟩).approvalConfirmedEvent = false ∧
    orderWriteCount
      (airtimeStep airFormOk ⟨TxStatus.approving, some "K1", true, none⟩
        (AirtimeEvent.approvalUpdate ⟨false, some "0xa1", true⟩ ⟨false, false, true⟩)).2 = 0 :=
  ⟨by decide,
    C2_order_after_approval.1 airFormOk ⟨TxStatus.approving, some "K1", true, none⟩
      (AirtimeEvent.approvalUpdate ⟨false, some "0xa1", true⟩ ⟨false, false, true⟩)
      (by decide)⟩

end ClaimC2

section ClaimC4

/-- C4 counterexample: in the enhanced-wallet airtime variant the createOrder
transaction carries the closure (pre-regeneration) key while the backend call
after confirmation carries the regenerated key: the two diverge within one
purchase attempt. -/
theorem C4_counterexample :
    Action.orderWrite "1730000000000-AAA" ∈
      (part4Step part4FormOk (idleWith "1730000000000-AAA")
        (.click "1730000000001-BBB" .resolved)).2 ∧
    Action.backendCall "1730000000001-BBB" "0xabc" ∈
      (part4Step part4FormOk
        (part4Step part4FormOk (idleWith "1730000000000-AAA")
          (.click "1730000000001-BBB" .resolved)).1
        (.txUpdate ⟨false, some "0xabc", false⟩ ⟨false, true, false⟩ none)).2 ∧
    ("1730000000000-AAA" : String) ≠ "1730000000001-BBB" := by
  have h1 : part4Step part4FormOk (idleWith "1730000000000-AAA")
      (.click "1730000000001-BBB" .resolved) =
      (⟨.waitingForSignature, some "1730000000001-BBB", true, none⟩,
        [ .guardCheck "1730000000000-AAA", .toastInfo "Approving token spend...",
          .approveWrite, .orderWrite "1730000000000-AAA"]) := by
    show part4HandlePurchase part4FormOk (idleWith "1730000000000-AAA")
        "1730000000001-BBB" .resolved = _
    norm_num [part4HandlePurchase, part4FormOk, idleWith, Part4Form.walletOk,
      Part4Form.orderExists, Part4Form.tokenAmount, Part4Form.cryptoNeeded, truthyPrice,
      quoteUnits, tokUSDC]
    all_goals decide
  rw [h1]
  decide

/-- C4 amended: in the effect-driven airtime flow, one purchase attempt —
submission click, approval confirmation, order confirmation — broadcasts
createOrder and calls the backend with one and the same key, namely the key
regenerated during handlePurchase. -/
theorem C4_same_key_for_order_and_backend (f : AirtimeForm) (s : FlowState)
    (k fresh ah h : String) (tk : Token)
    (hw : f.walletOk = true) (ha : f.address ≠ none) (hk : s.requestId = some k)
    (ht : f.token = some tk) (hph1 : 10 ≤ f.phoneLen) (hph2 : f.phoneLen ≤ 11)
    (hlow : 100 ≤ f.amountNGN) (hhigh : f.amountNGN ≤ 50000)
    (hpr : truthyPrice f.priceNGN = true) (hcn : 0 < f.cryptoNeeded)
    (hta : 0 < f.tokenAmount) (hoe : f.orderExists = false) (haddr : tk.address ≠ "") :
    Action.orderWrite fresh ∈
      (airtimeStep f (airtimeStep f s (.click fresh)).1
        (.approvalUpdate ⟨false, some ah, false⟩ ⟨false, true, false⟩)).2 ∧
    Action.backendCall fresh h ∈
      (airtimeStep f
        (airtimeStep f (airtimeStep f s (.click fresh)).1
          (.approvalUpdate ⟨false, some ah, false⟩ ⟨false, true, false⟩)).1
        (.mainUpdate ⟨false, some h, false⟩ ⟨false, true, false⟩ none)).2 := by
  have hamt : ¬ f.amountNGN ≤ 0 := not_le.mpr (lt_of_lt_of_le (by norm_num) hlow)
  have hclick : airtimeStep f s (.click fresh) =
      ({ s with showModal := true, txStatus := .waitingForApprovalSignature, backendRef := none, requestId := some fresh },
        [ .guardCheck k, .toastInfo "Approving token spend for this transaction...",
          .approveWrite]) := by
    show airtimeHandlePurchase f s fresh = _
    unfold airtimeHandlePurchase
    rw [if_neg (by simp [hw])]
    rw [if_neg (by push_neg; exact ⟨ha, by simp [hk], by simp [ht], not_le.mp hamt⟩)]
    rw [if_neg (by push_neg; exact ⟨hph1, hph2⟩)]
    rw [if_neg (by push_neg; exact ⟨hlow, hhigh⟩)]
    rw [if_neg (by push_neg; exact ⟨by simp [hpr], hcn⟩)]
    rw [if_neg (not_le.mpr hta)]
    rw [if_neg (by simp [hoe])]
    rw [if_neg (by simp [ht]; exact haddr)]
    rw [hk]
    rfl
  have hclick1 : (airtimeStep f s (.click fresh)).1 =
      { s with showModal := true, txStatus := .waitingForApprovalSignature, backendRef := none, requestId := some fresh } := by
    rw [hclick]
  have happ1 : (airtimeStep f
      ({ s with showModal := true, txStatus := .waitingForApprovalSignature, backendRef := none, requestId := some fresh })
      (.approvalUpdate ⟨false, some ah, false⟩ ⟨false, true, false⟩)).1 =
      { s with showModal := true, txStatus := .waitingForSignature, backendRef := none, requestId := some fresh } := by
    show (airtimeApprovalEffect ⟨false, some ah, false⟩ ⟨false, true, false⟩ _).1 = _
    unfold airtimeApprovalEffect
    norm_num
  constructor
  · rw [hclick1]
    show Action.orderWrite fresh ∈
      (airtimeApprovalEffect ⟨false, some ah, false⟩ ⟨false, true, false⟩ _).2
    unfold airtimeApprovalEffect
    norm_num
  · rw [hclick1, happ1]
    show Action.backendCall fresh h ∈
      (airtimeMainEffect ⟨false, some h, false⟩ ⟨false, true, false⟩ none _).2
    unfold airtimeMainEffect airtimeHandlePostTransaction
    simp

/-- Witness for the amended C4 at concrete inputs. -/
theorem C4_same_key_for_order_and_backend_witness :
    Action.orderWrite "K1" ∈
      (airtimeStep airFormOk (airtimeStep airFormOk (idleWith "K0") (.click "K1")).1
        (.approvalUpdate ⟨false, some "0xa1", false⟩ ⟨false, true, false⟩)).2 ∧
    Action.backendCall "K1" "0xabc" ∈
      (airtimeStep airFormOk
        (airtimeStep airFormOk (airtimeStep airFormOk (idleWith "K0") (.click "K1")).1
          (.approvalUpdate ⟨false, some "0xa1", false⟩ ⟨false, true, false⟩)).1
        (.mainUpdate ⟨false, some "0xabc", false⟩ ⟨false, true, false⟩ none)).2 :=
  C4_same_key_for_order_and_backend airFormOk (idleWith "K0") "K0" "K1" "0xa1" "0xabc"
    tokUSDC (by decide) (by decide) rfl rfl (by decide) (by decide)
    (by norm_num [airFormOk]) (by norm_num [airFormOk])
    (by norm_num [truthyPrice, airFormOk])
    (by norm_num [AirtimeForm.cryptoNeeded, truthyPrice, airFormOk])
    (by norm_num [AirtimeForm.tokenAmount, AirtimeForm.cryptoNeeded, truthyPrice,
      airFormOk, quoteUnits, tokUSDC])
    (by decide) (by decide)

end ClaimC4

section ClaimC5

/-- C5 counterexample: a submission attempt that fails pre-flight validation
(phone too short) reaches the error terminal state without regenerating the
idempotency key, and the next user-initiated submission proceeds with the very
same key. -/
theorem C5_counterexample :
    (airtimeHandlePurchase { airFormOk with phoneLen := 5 } (idleWith "K0") "F1").1.txStatus
      = TxStatus.error ∧
    (airtimeHandlePurchase { airFormOk with phoneLen := 5 } (idleWith "K0") "F1").1.requestId
      = some "K0" ∧
    Action.guardCheck "K0" ∈
      (airtimeHandlePurchase airFormOk
        (airtimeHandlePurchase { airFormOk with phoneLen := 5 } (idleWith "K0") "F1").1
        "F2").2 := by
  have h1 : airtimeHandlePurchase { airFormOk with phoneLen := 5 } (idleWith "K0") "F1" =
      (⟨.error, some "K0", true, none⟩,
        [ .toastError "Please enter a valid Nigerian phone number (10-11 digits)."]) := by
    norm_num [airtimeHandlePurchase, airFormOk, idleWith, AirtimeForm.walletOk,
      AirtimeForm.orderExists, AirtimeForm.tokenAmount, AirtimeForm.cryptoNeeded,
      truthyPrice, quoteUnits, tokUSDC]
    all_goals decide
  have h1st : (airtimeHandlePurchase { airFormOk with phoneLen := 5 }
      (idleWith "K0") "F1").1 = ⟨.error, some "K0", true, none⟩ := by
    rw [h1]
  have h2 : airtimeHandlePurchase airFormOk
      (⟨.error, some "K0", true, none⟩ : FlowState) "F2" =
      (⟨.waitingForApprovalSignature, some "F2", true, none⟩,
        [ .guardCheck "K0", .toastInfo "Approving token spend for this transaction...",
          .approveWrite]) := by
    norm_num [airtimeHandlePurchase, airFormOk, AirtimeForm.walletOk,
      AirtimeForm.orderExists, AirtimeForm.tokenAmount, AirtimeForm.cryptoNeeded,
      truthyPrice, quoteUnits, tokUSDC]
    all_goals decide
  rw [h1st, h2]
  decide

/-- C5 amended: a submission attempt regenerates the key when it reaches the
approval broadcast or aborts on the order-existence guard; attempts aborted by
earlier validation failures keep the prior key, which the next submission then
reuses.  The electricity flow behaves the same on its error paths. -/
theorem C5_fresh_key_after_submission :
    (∀ (f : AirtimeForm) (s : FlowState) (fresh : String),
      (Action.approveWrite ∈ (airtimeHandlePurchase f s fresh).2 →
        (airtimeHandlePurchase f s fresh).1.requestId = some fresh) ∧
      (f.orderExists = true →
        guardCheckCount (airtimeHandlePurchase f s fresh).2 ≠ 0 →
        (airtimeHandlePurchase f s fresh).1.requestId = some fresh ∧
        (airtimeHandlePurchase f s fresh).1.txStatus = TxStatus.error) ∧
      ((airtimeHandlePurchase f s fresh).1.txStatus = TxStatus.error →
        Action.approveWrite ∉ (airtimeHandlePurchase f s fresh).2 →
        f.orderExists = false →
        (airtimeHandlePurchase f s fresh).1.requestId = s.requestId)) ∧
    (∀ (f : ElecForm) (s : FlowState) (fresh : String),
      (Action.approveWrite ∈ (elecHandlePurchase f s fresh).2 →
        (elecHandlePurchase f s fresh).1.requestId = some fresh) ∧
      ((elecHandlePurchase f s fresh).1.txStatus = TxStatus.error →
        (elecHandlePurchase f s fresh).1.requestId = s.requestId)) := by
  constructor
  · intro f s fresh
    unfold airtimeHandlePurchase
    refine ⟨?_, ?_, ?_⟩ <;> split_ifs <;> simp_all [guardCheckCount]
  · intro f s fresh
    unfold elecHandlePurchase
    constructor <;> split_ifs <;> simp_all

/-- Witness for the amended C5: a submission that reaches the approval
broadcast leaves the freshly generated key in place. -/
theorem C5_fresh_key_after_submission_witness :
    Action.approveWrite ∈ (airtimeHandlePurchase airFormOk (idleWith "K0") "K1").2 ∧
    (airtimeHandlePurchase airFormOk (idleWith "K0") "K1").1.requestId = some "K1" := by
  have h1 : airtimeHandlePurchase airFormOk (idleWith "K0") "K1" =
      (⟨.waitingForApprovalSignature, some "K1", true, none⟩,
        [ .guardCheck "K0", .toastInfo "Approving token spend for this transaction...",
          .approveWrite]) := by
    norm_num [airtimeHandlePurchase, airFormOk, idleWith, AirtimeForm.walletOk,
      AirtimeForm.orderExists, AirtimeForm.tokenAmount, AirtimeForm.cryptoNeeded,
      truthyPrice, quoteUnits, tokUSDC]
    all_goals decide
  have hmem : Action.approveWrite ∈ (airtimeHandlePurchase airFormOk (idleWith "K0") "K1").2 := by
    rw [h1]
    decide
  exact ⟨hmem, (C5_fresh_key_after_submission.1 airFormOk (idleWith "K0") "K1").1 hmem⟩

end ClaimC5

section ClaimC6

/-- C6 counterexample: an in-bounds amount with a strictly positive spot price
whose quantized quote is zero (100 naira at a spot price of 10^9 naira per
token, 6 decimals): the quote is not strictly positive. -/
theorem C6_counterexample :
    (100 : ℚ) ≤ airFormHighPrice.amountNGN ∧ airFormHighPrice.amountNGN ≤ 50000 ∧
    airFormHighPrice.priceNGN = some 1000000000 ∧ ((0 : ℚ) < 1000000000) ∧
    airFormHighPrice.tokenAmount = 0 := by
  refine ⟨by norm_num [airFormHighPrice, airFormOk],
    by norm_num [airFormHighPrice, airFormOk], rfl, by norm_num, ?_⟩
  norm_num [AirtimeForm.tokenAmount, airFormHighPrice, airFormOk,
    AirtimeForm.cryptoNeeded, truthyPrice, quoteUnits, tokUSDC]

/-- C6 amended: the quantized quote is strictly positive whenever the quotient
amounts to at least one token quantum (amount * 10 ^ decimals at least the
price); an absent or zero spot price yields a zero quote and handlePurchase
blocks before any approval, order or backend action. -/
theorem C6_quote_positive_or_blocked :
    (∀ (amount price : ℚ) (d : Nat), 0 < price → price ≤ amount * 10 ^ d →
      0 < quoteUnits (amount / price) d) ∧
    (∀ f : AirtimeForm, truthyPrice f.priceNGN = false → f.cryptoNeeded = 0) ∧
    (∀ (f : AirtimeForm) (s : FlowState) (fresh : String),
      truthyPrice f.priceNGN = false →
      approveWriteCount (airtimeHandlePurchase f s fresh).2 = 0 ∧
      orderWriteCount (airtimeHandlePurchase f s fresh).2 = 0 ∧
      backendCallCount (airtimeHandlePurchase f s fresh).2 = 0) := by
  refine ⟨?_, ?_, ?_⟩
  · intro amount price d hp hle
    unfold quoteUnits
    have h1 : (1 : ℚ) ≤ amount / price * 10 ^ d := by
      rw [div_mul_eq_mul_div, le_div_iff hp]
      linarith
    have h2 : (1 : ℤ) ≤ ⌊amount / price * 10 ^ d + 1 / 2⌋ := by
      apply Int.le_floor.mpr
      push_cast
      linarith
    omega
  · intro f hf
    unfold AirtimeForm.cryptoNeeded
    rw [if_neg (by simp [hf])]
  · intro f s fresh hf
    unfold airtimeHandlePurchase
    split_ifs <;> first | exact ⟨rfl, rfl, rfl⟩ | simp_all

/-- Witness for the amended C6 at concrete inputs. -/
theorem C6_quote_positive_or_blocked_witness :
    ((0 : ℚ) < 5000 ∧ (5000 : ℚ) ≤ 1000 * 10 ^ 6) ∧
    0 < quoteUnits ((1000 : ℚ) / 5000) 6 ∧
    truthyPrice airFormNoPrice.priceNGN = false ∧
    approveWriteCount (airtimeHandlePurchase airFormNoPrice (idleWith "K0") "K1").2 = 0 :=
  ⟨⟨by norm_num, by norm_num⟩,
    C6_quote_positive_or_blocked.1 1000 5000 6 (by norm_num) (by norm_num),
    rfl,
    (C6_quote_positive_or_blocked.2.2 airFormNoPrice (idleWith "K0") "K1" rfl).1⟩

end ClaimC6

section ClaimC7

/-- C7 counterexample: the requestId generator effect mints an idempotency key
as soon as the amount field is non-empty, even for the out-of-bounds amount 50
(below the 100 minimum). -/
theorem C7_counterexample :
    ((50 : ℚ) < 100) ∧ airtimeRequestIdEffect "" "" "50" "" none "K" = some "K" := by
  constructor
  · norm_num
  · decide

/-- C7 amended: the airtime flow rejects out-of-range amounts before any
approval, order or backend action; the electricity handlePurchase checks only
positivity and proceeds to the approval broadcast for an amount of 50; and in
every flow the key generator mints a key once any form field is non-empty,
regardless of amount bounds. -/
theorem C7_amount_bounds_validation :
    (∀ (f : AirtimeForm) (s : FlowState) (fresh : String),
      (f.amountNGN < 100 ∨ 50000 < f.amountNGN) →
      approveWriteCount (airtimeHandlePurchase f s fresh).2 = 0 ∧
      orderWriteCount (airtimeHandlePurchase f s fresh).2 = 0 ∧
      backendCallCount (airtimeHandlePurchase f s fresh).2 = 0) ∧
    (∀ (f : ElecForm) (s : FlowState) (fresh k : String) (tk : Token),
      f.walletOk = true → f.address ≠ none → s.requestId = some k →
      f.verificationSuccess = true → f.customerName ≠ "" →
      0 < f.amountNGN → f.amountNGN < 100 → f.token = some tk →
      f.tokenAmount ≠ 0 → tk.address ≠ "" →
      Action.approveWrite ∈ (elecHandlePurchase f s fresh).2) ∧
    (∀ (selectedToken network amount phone fresh : String),
      (selectedToken ≠ "" ∨ network ≠ "" ∨ amount ≠ "" ∨ phone ≠ "") →
      airtimeRequestIdEffect selectedToken network amount phone none fresh = some fresh) := by
  refine ⟨?_, ?_, ?_⟩
  · intro f s fresh h
    unfold airtimeHandlePurchase
    split_ifs <;> first | exact ⟨rfl, rfl, rfl⟩ | simp_all
  · intro f s fresh k tk hw ha hk hv hname hpos hlt ht hta haddr
    unfold elecHandlePurchase
    rw [if_neg (by simp [hw])]
    rw [if_neg ha]
    rw [if_neg (by simp [hk])]
    rw [if_neg (by push_neg; exact ⟨by simp [hv], hname⟩)]
    rw [if_neg (not_le.mpr hpos)]
    rw [if_neg (by simp [ht])]
    rw [if_neg hta]
    rw [if_neg (by simp [ht]; exact haddr)]
    simp
  · intro selectedToken network amount phone fresh h
    unfold airtimeRequestIdEffect
    rw [if_pos ⟨h, rfl⟩]

/-- Witness for the amended C7: the electricity flow broadcasts the approval
for the amount 50. -/
theorem C7_amount_bounds_validation_witness :
    ((0 : ℚ) < elecForm50.amountNGN ∧ elecForm50.amountNGN < 100) ∧
    Action.approveWrite ∈ (elecHandlePurchase elecForm50 (idleWith "K0") "K1").2 :=
  ⟨⟨by norm_num [elecForm50, elecFormOk], by norm_num [elecForm50, elecFormOk]⟩,
    C7_amount_bounds_validation.2.1 elecForm50 (idleWith "K0") "K1" "K0" tokUSDC
      (by decide) (by decide) rfl (by decide) (by decide)
      (by norm_num [elecForm50, elecFormOk]) (by norm_num [elecForm50, elecFormOk])
      rfl
      (by norm_num [ElecForm.tokenAmount, ElecForm.cryptoNeeded, truthyPrice,
        elecForm50, elecFormOk, quoteUnits, tokUSDC])
      (by decide)⟩

end ClaimC7

end Paycrypt
